import Mathlib

/-!
Shallow embedding of the ore-pool repository (server contribute handler,
transaction confirmation loop, register return-data decoding, on-chain
instruction serialization, and the claim balance update), with theorems
settling the specification's claims about it.

External library functions (ed25519 signature verification, the drillx
hash/difficulty functions, base64 decoding, the RPC client) are taken as
abstract function parameters; the control flow around them is translated
from the source.
-/

namespace OrePool

/-- A 32-byte public key, modelled as its list of byte values. -/
abbrev Pubkey := List Nat

/-- A signature's bytes. -/
abbrev Sig := List Nat

/-- A drillx solution: the 8-byte nonce `n` and the 16-byte digest `d`
(fields used by the handler at `contributor.rs:156`). -/
structure Solution where
  n : List Nat
  d : List Nat
deriving DecidableEq

/-- The body of a POST /contribute request (`types::ContributePayload` as used
by the handler): authority, solution, signature. Note there is no round or
challenge identifier among the fields the handler reads. -/
structure ContributePayload where
  authority : Pubkey
  solution : Solution
  signature : Sig
deriving DecidableEq

/-- The live challenge as read by the handler: the 32-byte challenge bytes
(`aggregator.challenge.challenge`) and the minimum difficulty
(`aggregator.challenge.min_difficulty`). -/
structure Challenge where
  challenge : List Nat
  min_difficulty : Nat
deriving DecidableEq

/-- The aggregator state visible to the contribute handler: its live challenge. -/
structure Aggregator where
  challenge : Challenge
deriving DecidableEq

/-- The message sent over the mpsc channel to the aggregator task
(`contributor.rs:166-170`). Its fields are exactly `member`, `score`,
`solution`: it carries no round identifier. -/
structure Contribution where
  member : Pubkey
  score : Nat
  solution : Solution
deriving DecidableEq

/-- Models `2u64.pow(difficulty)` at `contributor.rs:161`: `2 ^ d` in 64-bit
machine arithmetic, i.e. reduced modulo `2 ^ 64` where it overflows. -/
def scoreU64 (difficulty : Nat) : Nat :=
  2 ^ difficulty % 2 ^ 64

/-- Events of the contribute handler's execution, in source order: the
aggregator mutex is acquired at `contributor.rs:137` and its guard is dropped
when the handler returns, after the response value is produced. -/
inductive HEv where
  | lockAcquire
  | computeDifficulty
  | verifySignature
  | checkMinDifficulty
  | checkDigest
  | computeScore
  | channelSend
  | respond (status : Nat)
  | lockRelease
deriving DecidableEq

/-- The observable outcome of one contribute request: the HTTP status code,
the message sent to the aggregator channel (if any), and the event trace. -/
structure ContributeOutcome where
  status : Nat
  sent : Option Contribution
  trace : List HEv
deriving DecidableEq

/-- The POST /contribute handler (`contributor.rs:128-174`), translated from
the source: lock the aggregator, compute the solution's difficulty, check the
signature (401 on failure), check the difficulty against
`challenge.min_difficulty as u32` — a truncating cast, modelled as
`min_difficulty % 2 ^ 32` — (400), check the digest against the live
challenge bytes (400), else compute `score = 2u64.pow(difficulty)`, send the
`Contribution` on the channel, and respond 200. `verify`, `difficultyOf` and
`isValidDigest` stand for `Signature::verify`, `Solution::to_hash().difficulty()`
and `drillx::is_valid_digest`. -/
def contribute (verify : Sig → Pubkey → Solution → Bool)
    (difficultyOf : Solution → Nat)
    (isValidDigest : List Nat → List Nat → List Nat → Bool)
    (aggregator : Aggregator) (payload : ContributePayload) : ContributeOutcome :=
  let difficulty := difficultyOf payload.solution
  if verify payload.signature payload.authority payload.solution = false then
    { status := 401, sent := none,
      trace := [HEv.lockAcquire, HEv.computeDifficulty, HEv.verifySignature,
                HEv.respond 401, HEv.lockRelease] }
  else if difficulty < aggregator.challenge.min_difficulty % 2 ^ 32 then
    { status := 400, sent := none,
      trace := [HEv.lockAcquire, HEv.computeDifficulty, HEv.verifySignature,
                HEv.checkMinDifficulty, HEv.respond 400, HEv.lockRelease] }
  else if isValidDigest aggregator.challenge.challenge payload.solution.n
      payload.solution.d = false then
    { status := 400, sent := none,
      trace := [HEv.lockAcquire, HEv.computeDifficulty, HEv.verifySignature,
                HEv.checkMinDifficulty, HEv.checkDigest, HEv.respond 400,
                HEv.lockRelease] }
  else
    { status := 200,
      sent := some { member := payload.authority, score := scoreU64 difficulty,
                     solution := payload.solution },
      trace := [HEv.lockAcquire, HEv.computeDifficulty, HEv.verifySignature,
                HEv.checkMinDifficulty, HEv.checkDigest, HEv.computeScore,
                HEv.channelSend, HEv.respond 200, HEv.lockRelease] }

/-- Whether event `e` occurs somewhere in the trace at a moment when the
aggregator lock is held. The Boolean argument is the lock state before the
first event of the list. -/
def occursWhileHeld (e : HEv) : Bool → List HEv → Bool
  | _, [] => false
  | held, x :: xs =>
      (x == e && held) ||
      occursWhileHeld e
        (if x == HEv.lockAcquire then true
         else if x == HEv.lockRelease then false else held) xs

/-- Delivery semantics of the mpsc channel on the receiving side: when the
handler sent no message, the receiver's state is untouched; when it sent a
contribution, the receiver applies it. -/
def channelDeliver {α : Type} (apply : α → Contribution → α) (s : α) :
    Option Contribution → α
  | none => s
  | some c => apply s c

/-- Modelled from the spec: the spec's `Contribution` data model (§3) carries a
`round_id` field used by `RecordContribution` for the StaleRound check. The
repository's `ContributePayload` and channel `Contribution` have no such
field, so the round a client mined against exists only as a client-side
annotation, here paired with the payload. -/
structure ClientContribution where
  payload : ContributePayload
  round_id : Nat
deriving DecidableEq

/-- Events of the confirmation loop: a confirmation check (attempt number `k`,
the value of `retries` when the RPC call is made) or a sleep of `s` seconds. -/
inductive ConfirmEv where
  | attempt (k : Nat)
  | sleepSecs (s : Nat)
deriving DecidableEq

/-- The `while retries < max_retries` loop of `confirm_transaction`
(`contributor.rs:56-67`), compiled with the remaining iteration budget
`fuel = max_retries - retries` as the recursion measure. Each iteration makes
one confirmation check; on a confirmed result it breaks (no increment, no
sleep), otherwise it increments `retries` and sleeps 2 seconds. Returns the
final value of `retries` and the event trace. `attempt k` stands for
`rpc_client.confirm_transaction_with_commitment` at `retries = k` reporting
`confirmed.value` (an RPC error counts as not confirmed). -/
def confirmGo (attempt : Nat → Bool) : Nat → Nat → Nat × List ConfirmEv
  | 0, retries => (retries, [])
  | fuel + 1, retries =>
      if attempt retries then (retries, [ConfirmEv.attempt retries])
      else
        let rest := confirmGo attempt fuel (retries + 1)
        (rest.1, ConfirmEv.attempt retries :: ConfirmEv.sleepSecs 2 :: rest.2)

/-- The retry ceiling `max_retries = 5` of `contributor.rs:54`. -/
def MAX_RETRIES : Nat := 5

/-- The `confirm_transaction` operation (`contributor.rs:52-72`): run the
retry loop from `retries = 0`; if the loop ended with `retries == max_retries`
return the terminal error, else success. -/
def confirmTransaction (attempt : Nat → Bool) : Except String Unit :=
  if (confirmGo attempt MAX_RETRIES 0).1 = MAX_RETRIES then
    Except.error "could not confirm transaction"
  else Except.ok ()

/-- The event trace of one `confirm_transaction` run. -/
def confirmTrace (attempt : Nat → Bool) : List ConfirmEv :=
  (confirmGo attempt MAX_RETRIES 0).2

/-- Whether a confirmation-loop event is a confirmation check. -/
def isAttempt : ConfirmEv → Bool
  | ConfirmEv.attempt _ => true
  | _ => false

/-- How many confirmation checks one `confirm_transaction` run makes. -/
def attemptCount (attempt : Nat → Bool) : Nat :=
  (confirmTrace attempt).countP isAttempt

/-- The server error type as distinguished by `register_return_data`: the
`Error::Internal` variant with its message, the error propagated from base64
decoding, and the error propagated from the `try_into` slice conversion. -/
inductive ServerError where
  | internal (msg : String)
  | base64Decode
  | sliceConvert
deriving DecidableEq

/-- The return-data slot of a transaction's metadata
(`UiTransactionReturnData`): its `data` field is a pair of the base64 payload
string and an encoding marker (discarded by the handler). -/
structure UiTransactionReturnData where
  data : String × Nat
deriving DecidableEq

/-- Transaction metadata: an optional return-data slot (the source's
`OptionSerializer` converted into an `Option`). -/
structure TxMeta where
  return_data : Option UiTransactionReturnData
deriving DecidableEq

/-- The transaction part of the RPC response, with optional metadata. -/
structure TxWithMeta where
  meta : Option TxMeta
deriving DecidableEq

/-- The RPC `get_transaction` response wrapper. -/
structure TxResponse where
  transaction : TxWithMeta
deriving DecidableEq

/-- Little-endian byte-list decoding, as `u64::from_le_bytes` reads an
8-byte array: the head is the least significant byte. -/
def leBytesToNat : List Nat → Nat
  | [] => 0
  | b :: bs => b + 256 * leBytesToNat bs

/-- The `register_return_data` operation (`contributor.rs:75-99`): fail with
`Error::Internal("missing return data (meta) from open instruction")` when the
transaction meta is absent or the return-data slot is absent; propagate the
base64 decode error; propagate the slice-conversion error when the decoded
payload is not exactly 8 bytes; else decode the member id with
`u64::from_le_bytes`. `decodeB64` stands for `BASE64_STANDARD.decode`
(`none` = malformed payload). -/
def register_return_data (decodeB64 : String → Option (List Nat))
    (resp : TxResponse) : Except ServerError Nat :=
  match resp.transaction.meta with
  | none =>
      Except.error
        (ServerError.internal "missing return data (meta) from open instruction")
  | some meta =>
    match meta.return_data with
    | none =>
        Except.error
          (ServerError.internal "missing return data (meta) from open instruction")
    | some rd =>
      match decodeB64 rd.data.1 with
      | none => Except.error ServerError.base64Decode
      | some bytes =>
          if bytes.length = 8 then Except.ok (leBytesToNat bytes)
          else Except.error ServerError.sliceConvert

/-- The `PoolInstruction` discriminants of `instruction.rs:13-19`. -/
inductive PoolInstruction where
  | Certify
  | Initialize
  | Submit
deriving DecidableEq

/-- The `repr(u8)` value of each instruction tag: `Certify = 100`,
`Initialize = 101`, `Submit = 102`. -/
def PoolInstruction.tag : PoolInstruction → Nat
  | PoolInstruction.Certify => 100
  | PoolInstruction.Initialize => 101
  | PoolInstruction.Submit => 102

/-- `PoolInstruction::to_vec` (`instruction.rs:22-24`): the single tag byte. -/
def PoolInstruction.to_vec (i : PoolInstruction) : List Nat := [i.tag]

/-- `CertifyArgs` (`instruction.rs:29-33`): a 16-byte digest, an 8-byte nonce
and a 32-byte signature, all byte arrays (so the `repr(C)` layout has no
padding). -/
structure CertifyArgs where
  digest : List Nat
  nonce : List Nat
  signature : List Nat
  digest_size : digest.length = 16
  nonce_size : nonce.length = 8
  signature_size : signature.length = 32

/-- The bytemuck `to_bytes` serialization of `CertifyArgs`: the fields' bytes
in declaration order. -/
def CertifyArgs.to_bytes (a : CertifyArgs) : List Nat :=
  a.digest ++ (a.nonce ++ a.signature)

/-- `SubmitArgs` (`instruction.rs:43-48`): a 32-byte attestation, one
batch-bump byte, a 16-byte digest and an 8-byte nonce. -/
structure SubmitArgs where
  attestation : List Nat
  batch_bump : Nat
  digest : List Nat
  nonce : List Nat
  attestation_size : attestation.length = 32
  batch_bump_byte : batch_bump < 256
  digest_size : digest.length = 16
  nonce_size : nonce.length = 8

/-- The bytemuck `to_bytes` serialization of `SubmitArgs`: the fields' bytes
in declaration order. -/
def SubmitArgs.to_bytes (s : SubmitArgs) : List Nat :=
  s.attestation ++ ([s.batch_bump] ++ (s.digest ++ s.nonce))

/-- An account reference of an instruction. -/
structure AccountMeta where
  pubkey : Pubkey
  is_signer : Bool
  is_writable : Bool
deriving DecidableEq

/-- `AccountMeta::new(pubkey, is_signer)`: a writable account reference. -/
def AccountMeta.new (pubkey : Pubkey) (is_signer : Bool) : AccountMeta :=
  { pubkey := pubkey, is_signer := is_signer, is_writable := true }

/-- An on-chain instruction: program id, account list, data bytes. -/
structure Instruction where
  program_id : Pubkey
  accounts : List AccountMeta
  data : List Nat
deriving DecidableEq

/-- The `initialize` instruction builder (`instruction.rs:59-65`), here named
`initializeIx`: one writable signer account and data
`[PoolInstruction::Initialize.to_vec()].concat()`. `programId` stands for
`crate::id()`. -/
def initializeIx (programId : Pubkey) (signer : Pubkey) : Instruction :=
  { program_id := programId,
    accounts := [AccountMeta.new signer true],
    data := List.flatten [PoolInstruction.to_vec PoolInstruction.Initialize] }

/-- A pool member record (`ore_pool_api::state::Member` as constructed at
`contributor.rs:40-46`). -/
structure Member where
  id : Nat
  pool : Pubkey
  authority : Pubkey
  balance : Nat
  total_balance : Nat
deriving DecidableEq

/-- `u64::checked_sub`: `none` when the subtrahend exceeds the minuend. -/
def checked_sub (a b : Nat) : Option Nat :=
  if b ≤ a then some (a - b) else none

/-- The `ClaimArgs` of `process_claim`: the 8-byte little-endian amount. -/
structure ClaimArgs where
  amount : List Nat
  amount_size : amount.length = 8

/-- The decoded claim amount, `u64::from_le_bytes(args.amount)`
(`claim.rs:12`). -/
def claimAmount (args : ClaimArgs) : Nat := leBytesToNat args.amount

/-- The member-balance update of `process_claim` (`claim.rs:29-32`):
`member.balance = member.balance.checked_sub(amount).unwrap()`. The `none`
result models the panic of the `.unwrap()` when `checked_sub` returns `None`;
nothing in this path returns a `ProgramError`. -/
def processClaimBalance (member : Member) (amount : Nat) : Option Member :=
  match checked_sub member.balance amount with
  | some b => some { member with balance := b }
  | none => none

/-! Concrete fixtures used by the closed counterexamples and witnesses. -/

/-- A signature verifier that accepts every payload (a concrete stand-in for
an honestly signed request). -/
def sigOkAll : Sig → Pubkey → Solution → Bool := fun _ _ _ => true

/-- A signature verifier that rejects every payload. -/
def sigFailAll : Sig → Pubkey → Solution → Bool := fun _ _ _ => false

/-- A digest check that accepts every solution against every challenge. -/
def digestOkAll : List Nat → List Nat → List Nat → Bool := fun _ _ _ => true

/-- A digest check that rejects every solution. -/
def digestFailAll : List Nat → List Nat → List Nat → Bool := fun _ _ _ => false

/-- A difficulty function returning the constant `d`. -/
def diffConst (d : Nat) : Solution → Nat := fun _ => d

/-- A concrete contribute payload. Its solution's nonce bytes decode to
`15 + 39 * 256 = 9999`. -/
def samplePayload : ContributePayload :=
  { authority := List.replicate 32 1,
    solution := { n := [15, 39, 0, 0, 0, 0, 0, 0], d := List.replicate 16 2 },
    signature := List.replicate 64 3 }

/-- A concrete aggregator whose live challenge has `min_difficulty = 5`. -/
def sampleAggregator : Aggregator :=
  { challenge := { challenge := List.replicate 32 7, min_difficulty := 5 } }

/-- A concrete aggregator whose live challenge has `min_difficulty = 2 ^ 32`,
whose low 32 bits are 0. -/
def bigMinAggregator : Aggregator :=
  { challenge := { challenge := List.replicate 32 7, min_difficulty := 2 ^ 32 } }

/-- A spec-level nonce range, `{member_id, start, end}` with `end` exclusive
(spec §3); the field `end` is a Lean keyword, so it is named `stop`. -/
structure NonceRange where
  member_id : Nat
  start : Nat
  stop : Nat
deriving DecidableEq

/-- Whether a nonce value lies inside a range. -/
def NonceRange.contains (r : NonceRange) (v : Nat) : Bool :=
  decide (r.start ≤ v) && decide (v < r.stop)

/-- The nonce value of a solution: its 8 nonce bytes read little-endian. -/
def nonceValue (s : Solution) : Nat := leBytesToNat s.n

/-- A concrete allocated range `[0, 10)` for a member. -/
def allocatedRange : NonceRange := { member_id := 1, start := 0, stop := 10 }

/-- A concrete client-side contribution annotated with round 0, stale
relative to a live round 1. -/
def staleClient : ClientContribution :=
  { payload := samplePayload, round_id := 0 }

/-- An attempt oracle that fails four checks and confirms on the fifth. -/
def attemptFifth : Nat → Bool := fun k => decide (k = 4)

/-- An attempt oracle that never confirms. -/
def attemptNever : Nat → Bool := fun _ => false

/-- A base64 decoder fixture returning the little-endian bytes of 258. -/
def sampleDecode : String → Option (List Nat) :=
  fun _ => some [2, 1, 0, 0, 0, 0, 0, 0]

/-- A transaction response fixture with meta and return data present. -/
def sampleResp : TxResponse :=
  { transaction := { meta := some { return_data := some { data := ("AgEAAAAAAAA=", 0) } } } }

/-- Concrete certify arguments. -/
def sampleCertify : CertifyArgs :=
  { digest := List.replicate 16 4, nonce := List.replicate 8 5,
    signature := List.replicate 32 6,
    digest_size := rfl, nonce_size := rfl, signature_size := rfl }

/-- Concrete submit arguments. -/
def sampleSubmit : SubmitArgs :=
  { attestation := List.replicate 32 7, batch_bump := 255,
    digest := List.replicate 16 8, nonce := List.replicate 8 9,
    attestation_size := rfl, batch_bump_byte := by decide,
    digest_size := rfl, nonce_size := rfl }

/-- A member fixture with balance 1000. -/
def sampleMember : Member :=
  { id := 7, pool := List.replicate 32 0, authority := List.replicate 32 1,
    balance := 1000, total_balance := 1000 }

/-- Claim arguments whose amount decodes to 100. -/
def sampleClaim : ClaimArgs :=
  { amount := [100, 0, 0, 0, 0, 0, 0, 0], amount_size := rfl }

/-- Claim arguments whose amount decodes to `256 ^ 7`, exceeding any sample
balance. -/
def overClaim : ClaimArgs :=
  { amount := [0, 0, 0, 0, 0, 0, 0, 1], amount_size := rfl }

/-! Theorems settling the claims. -/

/-- C2 counterexample: with `min_difficulty = 2 ^ 32` the `as u32` cast at
`contributor.rs:151` truncates the threshold to 0, so a solution of
difficulty 10 — below the nominal minimum, with valid signature and digest —
passes the difficulty check and is accepted with 200 and forwarded, where the
claim requires a 400 rejection whenever
`difficulty < challenge.min_difficulty`. -/
theorem contribute_min_truncation_cx :
    10 < bigMinAggregator.challenge.min_difficulty ∧
    (contribute sigOkAll (diffConst 10) digestOkAll bigMinAggregator
      samplePayload).status = 200 ∧
    (contribute sigOkAll (diffConst 10) digestOkAll bigMinAggregator
      samplePayload).sent ≠ none := by
  decide

/-- C2 (amended): the contribute handler applies the validation steps in
order: the signature check first (401 exactly when the signature does not
verify), then the difficulty check against the low 32 bits of
`challenge.min_difficulty` — the `as u32` truncating cast of
`contributor.rs:151` — (400 when
`difficulty < challenge.min_difficulty % 2 ^ 32`), then the digest check (400
when the `(n, d)` pair fails verification against the live challenge), and it
returns 200 exactly when all three checks pass. For
`min_difficulty < 2 ^ 32` the truncation is the identity and the checks read
as the original claim states them. -/
theorem contribute_checks_in_order
    (verify : Sig → Pubkey → Solution → Bool) (difficultyOf : Solution → Nat)
    (isValidDigest : List Nat → List Nat → List Nat → Bool)
    (aggregator : Aggregator) (payload : ContributePayload) :
    ((contribute verify difficultyOf isValidDigest aggregator payload).status = 401 ↔
      verify payload.signature payload.authority payload.solution = false) ∧
    (verify payload.signature payload.authority payload.solution = true →
      difficultyOf payload.solution < aggregator.challenge.min_difficulty % 2 ^ 32 →
      (contribute verify difficultyOf isValidDigest aggregator payload).status = 400) ∧
    (verify payload.signature payload.authority payload.solution = true →
      ¬ difficultyOf payload.solution < aggregator.challenge.min_difficulty % 2 ^ 32 →
      isValidDigest aggregator.challenge.challenge payload.solution.n
        payload.solution.d = false →
      (contribute verify difficultyOf isValidDigest aggregator payload).status = 400) ∧
    ((contribute verify difficultyOf isValidDigest aggregator payload).status = 200 ↔
      verify payload.signature payload.authority payload.solution = true ∧
      aggregator.challenge.min_difficulty % 2 ^ 32 ≤ difficultyOf payload.solution ∧
      isValidDigest aggregator.challenge.challenge payload.solution.n
        payload.solution.d = true) := by
  cases hv : verify payload.signature payload.authority payload.solution with
  | false => simp [contribute, hv]
  | true =>
    by_cases hd : difficultyOf payload.solution <
        aggregator.challenge.min_difficulty % 2 ^ 32
    · have hd' : difficultyOf payload.solution <
          aggregator.challenge.min_difficulty % 4294967296 := hd
      simp [contribute, hv, hd', Nat.not_le_of_lt hd']
    · have hd' : ¬ difficultyOf payload.solution <
          aggregator.challenge.min_difficulty % 4294967296 := hd
      cases hg : isValidDigest aggregator.challenge.challenge payload.solution.n
        payload.solution.d with
      | false => simp [contribute, hv, hd', hg]
      | true => simp [contribute, hv, hd', hg, Nat.not_lt.mp hd']

/-- C2 witness: at concrete inputs with `min_difficulty = 5` (where the
truncation is the identity), a below-minimum difficulty yields 400 and a
fully valid payload yields 200. -/
theorem contribute_checks_in_order_witness :
    (contribute sigOkAll (diffConst 3) digestOkAll sampleAggregator
      samplePayload).status = 400 ∧
    (contribute sigOkAll (diffConst 10) digestOkAll sampleAggregator
      samplePayload).status = 200 := by
  refine ⟨?_, ?_⟩
  · exact (contribute_checks_in_order sigOkAll (diffConst 3) digestOkAll
      sampleAggregator samplePayload).2.1 rfl (by decide)
  · exact ((contribute_checks_in_order sigOkAll (diffConst 10) digestOkAll
      sampleAggregator samplePayload).2.2.2).mpr ⟨rfl, by decide, rfl⟩

/-- C6: a rejection (any status other than 200) sends nothing to the
aggregation channel, and an empty channel delivery leaves any receiver state
unchanged; conversely a 200 response always carries a sent contribution. -/
theorem contribute_reject_sends_nothing
    (verify : Sig → Pubkey → Solution → Bool) (difficultyOf : Solution → Nat)
    (isValidDigest : List Nat → List Nat → List Nat → Bool)
    (aggregator : Aggregator) (payload : ContributePayload) :
    ((contribute verify difficultyOf isValidDigest aggregator payload).sent = none ↔
      (contribute verify difficultyOf isValidDigest aggregator payload).status ≠ 200) ∧
    ((contribute verify difficultyOf isValidDigest aggregator payload).status ≠ 200 →
      ∀ (α : Type) (apply : α → Contribution → α) (s : α),
        channelDeliver apply s
          (contribute verify difficultyOf isValidDigest aggregator payload).sent = s) := by
  cases hv : verify payload.signature payload.authority payload.solution with
  | false => simp [contribute, hv, channelDeliver]
  | true =>
    by_cases hd : difficultyOf payload.solution <
        aggregator.challenge.min_difficulty % 2 ^ 32
    · have hd' : difficultyOf payload.solution <
          aggregator.challenge.min_difficulty % 4294967296 := hd
      simp [contribute, hv, hd', channelDeliver]
    · have hd' : ¬ difficultyOf payload.solution <
          aggregator.challenge.min_difficulty % 4294967296 := hd
      cases hg : isValidDigest aggregator.challenge.challenge payload.solution.n
        payload.solution.d with
      | false => simp [contribute, hv, hd', hg, channelDeliver]
      | true => simp [contribute, hv, hd', hg]

/-- C6 witness: a rejected concrete request (bad signature) sends nothing and
leaves a counter state unchanged through the channel. -/
theorem contribute_reject_sends_nothing_witness :
    (contribute sigFailAll (diffConst 10) digestOkAll sampleAggregator
      samplePayload).sent = none ∧
    channelDeliver (fun (n : Nat) _ => n + 1) 0
      (contribute sigFailAll (diffConst 10) digestOkAll sampleAggregator
        samplePayload).sent = 0 := by
  have h := contribute_reject_sends_nothing sigFailAll (diffConst 10) digestOkAll
    sampleAggregator samplePayload
  exact ⟨h.1.mpr (by decide), h.2 (by decide) Nat (fun n _ => n + 1) 0⟩

/-- C1 counterexample: a contribution whose client-side round annotation (0)
differs from the live round (1) but whose signature, difficulty and digest
all validate against the live challenge is accepted with 200 and forwarded to
the aggregation channel — not rejected with StaleRound. The payload and the
forwarded `Contribution` carry no round_id on which any StaleRound check
could act. -/
theorem contribute_no_staleround_cx :
    staleClient.round_id ≠ 1 ∧
    (contribute sigOkAll (diffConst 10) digestOkAll sampleAggregator
      staleClient.payload).status = 200 ∧
    (contribute sigOkAll (diffConst 10) digestOkAll sampleAggregator
      staleClient.payload).sent =
      some { member := samplePayload.authority, score := 1024,
             solution := samplePayload.solution } := by
  decide

/-- C1 (amended): the contribute handler performs no round-id check and has no
StaleRound outcome; its result is determined solely by the live-challenge
checks, regardless of the round the client mined against. A solution whose
digest fails against the live challenge (as one mined against a superseded
challenge does) is rejected with 400 and nothing is sent; a solution passing
all three checks against the live challenge is accepted with 200 and
forwarded, even when the client's round annotation differs from the live
round. -/
theorem contribute_ignores_client_round
    (verify : Sig → Pubkey → Solution → Bool) (difficultyOf : Solution → Nat)
    (isValidDigest : List Nat → List Nat → List Nat → Bool)
    (aggregator : Aggregator) (cc : ClientContribution) (liveRound : Nat)
    (_hstale : cc.round_id ≠ liveRound) :
    (verify cc.payload.signature cc.payload.authority cc.payload.solution = true →
      ¬ difficultyOf cc.payload.solution < aggregator.challenge.min_difficulty →
      isValidDigest aggregator.challenge.challenge cc.payload.solution.n
        cc.payload.solution.d = false →
      (contribute verify difficultyOf isValidDigest aggregator cc.payload).status = 400 ∧
      (contribute verify difficultyOf isValidDigest aggregator cc.payload).sent = none) ∧
    (verify cc.payload.signature cc.payload.authority cc.payload.solution = true →
      ¬ difficultyOf cc.payload.solution < aggregator.challenge.min_difficulty →
      isValidDigest aggregator.challenge.challenge cc.payload.solution.n
        cc.payload.solution.d = true →
      (contribute verify difficultyOf isValidDigest aggregator cc.payload).status = 200 ∧
      (contribute verify difficultyOf isValidDigest aggregator cc.payload).sent =
        some { member := cc.payload.authority,
               score := scoreU64 (difficultyOf cc.payload.solution),
               solution := cc.payload.solution }) := by
  constructor
  · intro hv hd hg
    have hd2 : ¬ difficultyOf cc.payload.solution <
        aggregator.challenge.min_difficulty % 4294967296 :=
      fun hlt => hd (Nat.lt_of_lt_of_le hlt (Nat.mod_le _ _))
    simp [contribute, hv, hd2, hg]
  · intro hv hd hg
    have hd2 : ¬ difficultyOf cc.payload.solution <
        aggregator.challenge.min_difficulty % 4294967296 :=
      fun hlt => hd (Nat.lt_of_lt_of_le hlt (Nat.mod_le _ _))
    simp [contribute, hv, hd2, hg]

/-- C1 witness: at a concrete stale-annotated contribution whose digest fails
against the live challenge, the handler answers 400 with nothing sent. -/
theorem contribute_ignores_client_round_witness :
    (contribute sigOkAll (diffConst 10) digestFailAll sampleAggregator
      staleClient.payload).status = 400 ∧
    (contribute sigOkAll (diffConst 10) digestFailAll sampleAggregator
      staleClient.payload).sent = none :=
  (contribute_ignores_client_round sigOkAll (diffConst 10) digestFailAll
    sampleAggregator staleClient 1 (by decide)).1 rfl (by decide) rfl

/-- C3 counterexample: at difficulty 64 — a value the validator can produce,
since drillx difficulty is the leading-zero count of a 32-byte hash and so
ranges up to 256 — the u64 score `2u64.pow(64)` wraps to 0, so it is not
`2 ^ 64` exactly and strict monotonicity fails (`score 63 = 2 ^ 63 > 0 =
score 64`); the handler forwards the wrapped score 0. -/
theorem score_overflow_cx :
    scoreU64 64 = 0 ∧
    scoreU64 64 ≠ 2 ^ 64 ∧
    ¬ scoreU64 63 < scoreU64 64 ∧
    (contribute sigOkAll (diffConst 64) digestOkAll sampleAggregator
      samplePayload).sent =
      some { member := samplePayload.authority, score := 0,
             solution := samplePayload.solution } := by
  decide

/-- C3 (amended): for difficulties below 64, where `2 ^ d` fits in a u64, the
score equals `2 ^ d` exactly and is strictly monotone in the difficulty; and
every accepted contribution is forwarded with score
`scoreU64 (difficulty of its solution)`. -/
theorem score_exact_below_64 (d1 d2 : Nat) (h12 : d1 < d2) (h2 : d2 ≤ 63) :
    scoreU64 d1 = 2 ^ d1 ∧ scoreU64 d2 = 2 ^ d2 ∧ scoreU64 d1 < scoreU64 d2 ∧
    ∀ (verify : Sig → Pubkey → Solution → Bool) (difficultyOf : Solution → Nat)
      (isValidDigest : List Nat → List Nat → List Nat → Bool)
      (aggregator : Aggregator) (payload : ContributePayload),
      (contribute verify difficultyOf isValidDigest aggregator payload).status = 200 →
      (contribute verify difficultyOf isValidDigest aggregator payload).sent =
        some { member := payload.authority,
               score := scoreU64 (difficultyOf payload.solution),
               solution := payload.solution } := by
  have hp1 : 2 ^ d1 < 2 ^ 64 := Nat.pow_lt_pow_right (by norm_num) (by omega)
  have hp2 : 2 ^ d2 < 2 ^ 64 := Nat.pow_lt_pow_right (by norm_num) (by omega)
  have e1 : scoreU64 d1 = 2 ^ d1 := Nat.mod_eq_of_lt hp1
  have e2 : scoreU64 d2 = 2 ^ d2 := Nat.mod_eq_of_lt hp2
  refine ⟨e1, e2, ?_, ?_⟩
  · rw [e1, e2]
    exact Nat.pow_lt_pow_right (by norm_num) h12
  · intro verify difficultyOf isValidDigest aggregator payload hok
    cases hv : verify payload.signature payload.authority payload.solution with
    | false => simp [contribute, hv] at hok
    | true =>
      by_cases hd : difficultyOf payload.solution <
          aggregator.challenge.min_difficulty % 2 ^ 32
      · have hd' : difficultyOf payload.solution <
            aggregator.challenge.min_difficulty % 4294967296 := hd
        simp [contribute, hv, hd'] at hok
      · have hd' : ¬ difficultyOf payload.solution <
            aggregator.challenge.min_difficulty % 4294967296 := hd
        cases hg : isValidDigest aggregator.challenge.challenge payload.solution.n
          payload.solution.d with
        | false => simp [contribute, hv, hd', hg] at hok
        | true => simp [contribute, hv, hd', hg]

/-- C3 witness: difficulty 12 scores exactly 4096 (the spec's own scenario)
and exceeds the score of difficulty 10; the accepted concrete contribution is
forwarded with that score. -/
theorem score_exact_below_64_witness :
    scoreU64 12 = 4096 ∧ scoreU64 10 < scoreU64 12 ∧
    (contribute sigOkAll (diffConst 12) digestOkAll sampleAggregator
      samplePayload).sent =
      some { member := samplePayload.authority, score := scoreU64 12,
             solution := samplePayload.solution } := by
  have h := score_exact_below_64 10 12 (by decide) (by decide)
  refine ⟨?_, h.2.2.1, h.2.2.2 sigOkAll (diffConst 12) digestOkAll
    sampleAggregator samplePayload (by decide)⟩
  rw [h.2.1]
  norm_num

/-- C4 counterexample: a concrete contribution whose nonce (9999) lies outside
the member's allocated range `[0, 10)` but which passes the signature,
difficulty and digest checks is accepted with 200 and forwarded — there is no
NonceOutOfRange rejection in the validation path. -/
theorem contribute_no_range_check_cx :
    NonceRange.contains allocatedRange (nonceValue samplePayload.solution) = false ∧
    nonceValue samplePayload.solution = 9999 ∧
    (contribute sigOkAll (diffConst 11) digestOkAll sampleAggregator
      samplePayload).status = 200 ∧
    (contribute sigOkAll (diffConst 11) digestOkAll sampleAggregator
      samplePayload).sent ≠ none := by
  decide

/-- C4 (amended): the contribute validation path performs no nonce-range
check: a contribution passing the signature, difficulty and digest checks is
accepted with 200 and forwarded even when its solution's nonce lies outside a
range allocated to the member. -/
theorem contribute_accepts_out_of_range_nonce
    (verify : Sig → Pubkey → Solution → Bool) (difficultyOf : Solution → Nat)
    (isValidDigest : List Nat → List Nat → List Nat → Bool)
    (aggregator : Aggregator) (payload : ContributePayload) (r : NonceRange)
    (hv : verify payload.signature payload.authority payload.solution = true)
    (hd : ¬ difficultyOf payload.solution < aggregator.challenge.min_difficulty)
    (hg : isValidDigest aggregator.challenge.challenge payload.solution.n
      payload.solution.d = true)
    (_hout : NonceRange.contains r (nonceValue payload.solution) = false) :
    (contribute verify difficultyOf isValidDigest aggregator payload).status = 200 ∧
    (contribute verify difficultyOf isValidDigest aggregator payload).sent ≠ none := by
  have hd2 : ¬ difficultyOf payload.solution <
      aggregator.challenge.min_difficulty % 4294967296 :=
    fun hlt => hd (Nat.lt_of_lt_of_le hlt (Nat.mod_le _ _))
  simp [contribute, hv, hd2, hg]

/-- C4 witness: the amended theorem applied at the concrete out-of-range
contribution. -/
theorem contribute_accepts_out_of_range_nonce_witness :
    (contribute sigOkAll (diffConst 11) digestOkAll sampleAggregator
      samplePayload).status = 200 ∧
    (contribute sigOkAll (diffConst 11) digestOkAll sampleAggregator
      samplePayload).sent ≠ none :=
  contribute_accepts_out_of_range_nonce sigOkAll (diffConst 11) digestOkAll
    sampleAggregator samplePayload allocatedRange rfl (by decide) rfl (by decide)

/-- C7 counterexample: at a concrete valid contribution, both the signature
verification and the digest check occur in the handler's event trace while
the aggregator lock is held — cryptographic verification is not performed
outside the mutual-exclusion lock. -/
theorem contribute_verify_inside_lock_cx :
    occursWhileHeld HEv.verifySignature false
      (contribute sigOkAll (diffConst 10) digestFailAll sampleAggregator
        samplePayload).trace = true ∧
    occursWhileHeld HEv.checkDigest false
      (contribute sigOkAll (diffConst 10) digestFailAll sampleAggregator
        samplePayload).trace = true := by
  decide

/-- C7 (amended): the contribute handler acquires the aggregator lock as its
first action and releases it only after the response is produced; the
signature verification always happens while the lock is held, and so does the
digest check whenever it is reached. There is no snapshot-then-unlock step
before verification. -/
theorem contribute_verifies_under_lock
    (verify : Sig → Pubkey → Solution → Bool) (difficultyOf : Solution → Nat)
    (isValidDigest : List Nat → List Nat → List Nat → Bool)
    (aggregator : Aggregator) (payload : ContributePayload) :
    (contribute verify difficultyOf isValidDigest aggregator
      payload).trace.head? = some HEv.lockAcquire ∧
    (contribute verify difficultyOf isValidDigest aggregator
      payload).trace.getLast? = some HEv.lockRelease ∧
    occursWhileHeld HEv.verifySignature false
      (contribute verify difficultyOf isValidDigest aggregator payload).trace = true ∧
    (HEv.checkDigest ∈
        (contribute verify difficultyOf isValidDigest aggregator payload).trace →
      occursWhileHeld HEv.checkDigest false
        (contribute verify difficultyOf isValidDigest aggregator payload).trace = true) := by
  cases hv : verify payload.signature payload.authority payload.solution with
  | false =>
    have e : (contribute verify difficultyOf isValidDigest aggregator payload).trace =
        [HEv.lockAcquire, HEv.computeDifficulty, HEv.verifySignature,
         HEv.respond 401, HEv.lockRelease] := by
      simp [contribute, hv]
    rw [e]
    decide
  | true =>
    by_cases hd : difficultyOf payload.solution <
        aggregator.challenge.min_difficulty % 2 ^ 32
    · have hd' : difficultyOf payload.solution <
          aggregator.challenge.min_difficulty % 4294967296 := hd
      have e : (contribute verify difficultyOf isValidDigest aggregator payload).trace =
          [HEv.lockAcquire, HEv.computeDifficulty, HEv.verifySignature,
           HEv.checkMinDifficulty, HEv.respond 400, HEv.lockRelease] := by
        simp [contribute, hv, hd']
      rw [e]
      decide
    · have hd' : ¬ difficultyOf payload.solution <
          aggregator.challenge.min_difficulty % 4294967296 := hd
      cases hg : isValidDigest aggregator.challenge.challenge payload.solution.n
        payload.solution.d with
      | false =>
        have e : (contribute verify difficultyOf isValidDigest aggregator payload).trace =
            [HEv.lockAcquire, HEv.computeDifficulty, HEv.verifySignature,
             HEv.checkMinDifficulty, HEv.checkDigest, HEv.respond 400,
             HEv.lockRelease] := by
          simp [contribute, hv, hd', hg]
        rw [e]
        decide
      | true =>
        have e : (contribute verify difficultyOf isValidDigest aggregator payload).trace =
            [HEv.lockAcquire, HEv.computeDifficulty, HEv.verifySignature,
             HEv.checkMinDifficulty, HEv.checkDigest, HEv.computeScore,
             HEv.channelSend, HEv.respond 200, HEv.lockRelease] := by
          simp [contribute, hv, hd', hg]
        rw [e]
        decide

/-- C7 witness: the amended theorem applied at a concrete accepted
contribution, whose trace takes the lock first, verifies the signature under
it, and (the digest check being reached) checks the digest under it too. -/
theorem contribute_verifies_under_lock_witness :
    (contribute sigOkAll (diffConst 13) digestOkAll sampleAggregator
      samplePayload).trace.head? = some HEv.lockAcquire ∧
    occursWhileHeld HEv.verifySignature false
      (contribute sigOkAll (diffConst 13) digestOkAll sampleAggregator
        samplePayload).trace = true ∧
    occursWhileHeld HEv.checkDigest false
      (contribute sigOkAll (diffConst 13) digestOkAll sampleAggregator
        samplePayload).trace = true := by
  have h := contribute_verifies_under_lock sigOkAll (diffConst 13) digestOkAll
    sampleAggregator samplePayload
  exact ⟨h.1, h.2.2.1, h.2.2.2 (by decide)⟩

/-- Helper: when every check in the remaining budget fails, the loop runs the
budget out and ends with `retries + fuel`. -/
theorem confirmGo_fst_all_fail (attempt : Nat → Bool) :
    ∀ fuel retries, (∀ k, retries ≤ k → k < retries + fuel → attempt k = false) →
    (confirmGo attempt fuel retries).1 = retries + fuel := by
  intro fuel
  induction fuel with
  | zero => intro retries _; simp [confirmGo]
  | succ n ih =>
    intro retries h
    have h0 : attempt retries = false := h retries le_rfl (by omega)
    have hr := ih (retries + 1) (fun k hk1 hk2 => h k (by omega) (by omega))
    simp [confirmGo, h0]
    omega

/-- Helper: when some check in the remaining budget succeeds, the loop breaks
before exhausting the budget. -/
theorem confirmGo_fst_lt_of_success (attempt : Nat → Bool) :
    ∀ fuel retries k, retries ≤ k → k < retries + fuel → attempt k = true →
    (confirmGo attempt fuel retries).1 < retries + fuel := by
  intro fuel
  induction fuel with
  | zero => intro retries k _ hk2 _; omega
  | succ n ih =>
    intro retries k hk1 hk2 hk
    cases h0 : attempt retries with
    | true =>
      simp [confirmGo, h0]
    | false =>
      have hne : k ≠ retries := by
        intro e
        rw [e, h0] at hk
        exact Bool.noConfusion hk
      have h1 : retries + 1 ≤ k := by omega
      have := ih (retries + 1) k h1 (by omega) hk
      simp [confirmGo, h0]
      omega

/-- Helper: the loop makes at most `fuel` confirmation checks. -/
theorem confirmGo_count_le (attempt : Nat → Bool) :
    ∀ fuel retries, ((confirmGo attempt fuel retries).2.countP isAttempt) ≤ fuel := by
  intro fuel
  induction fuel with
  | zero => intro retries; simp [confirmGo]
  | succ n ih =>
    intro retries
    cases h0 : attempt retries with
    | true => simp [confirmGo, h0, isAttempt]
    | false =>
      have := ih (retries + 1)
      simp [confirmGo, h0, List.countP_cons, isAttempt]
      omega

/-- Helper: every event of the loop trace is a confirmation check or a
2-second sleep. -/
theorem confirmGo_mem (attempt : Nat → Bool) :
    ∀ fuel retries e, e ∈ (confirmGo attempt fuel retries).2 →
    isAttempt e = true ∨ e = ConfirmEv.sleepSecs 2 := by
  intro fuel
  induction fuel with
  | zero => intro retries e he; simp [confirmGo] at he
  | succ n ih =>
    intro retries e he
    cases h0 : attempt retries with
    | true =>
      rw [confirmGo] at he
      simp [h0] at he
      subst he
      exact Or.inl rfl
    | false =>
      rw [confirmGo] at he
      simp [h0] at he
      rcases he with he | he | he
      · subst he; exact Or.inl rfl
      · subst he; exact Or.inr rfl
      · exact ih (retries + 1) e he

/-- Helper: in the loop trace, every confirmation check that is followed by
another event is followed directly by a 2-second sleep. -/
theorem confirmGo_chain (attempt : Nat → Bool) :
    ∀ fuel retries,
    List.Chain' (fun a b => isAttempt a = true → b = ConfirmEv.sleepSecs 2)
      (confirmGo attempt fuel retries).2 := by
  intro fuel
  induction fuel with
  | zero => intro retries; simp [confirmGo]
  | succ n ih =>
    intro retries
    cases h0 : attempt retries with
    | true => simp [confirmGo, h0]
    | false =>
      rw [confirmGo]
      simp only [h0, if_false, Bool.false_eq_true]
      rw [List.chain'_cons']
      refine ⟨fun y hy _ => ?_, ?_⟩
      · simp at hy
        exact hy.symm
      · rw [List.chain'_cons']
        refine ⟨fun y hy h => ?_, ih (retries + 1)⟩
        exact absurd h (by simp [isAttempt])

/-- C5: `confirm_transaction` makes at most 5 confirmation checks; if any of
the 5 checks reports the transaction confirmed it returns success (in
particular 4 failures then a success on the 5th); if all 5 fail it returns
the terminal confirmation-timeout error; and the trace consists of checks and
fixed 2-second sleeps, with every check that is not the last event followed
directly by a 2-second sleep. -/
theorem confirm_transaction_retry_policy (attempt : Nat → Bool) :
    attemptCount attempt ≤ 5 ∧
    ((∃ k, k < 5 ∧ attempt k = true) → confirmTransaction attempt = Except.ok ()) ∧
    ((∀ k, k < 5 → attempt k = false) →
      confirmTransaction attempt = Except.error "could not confirm transaction") ∧
    (∀ e ∈ confirmTrace attempt, isAttempt e = true ∨ e = ConfirmEv.sleepSecs 2) ∧
    List.Chain' (fun a b => isAttempt a = true → b = ConfirmEv.sleepSecs 2)
      (confirmTrace attempt) := by
  refine ⟨confirmGo_count_le attempt 5 0, ?_, ?_,
    fun e he => confirmGo_mem attempt 5 0 e he, confirmGo_chain attempt 5 0⟩
  · rintro ⟨k, hk5, hk⟩
    have hlt := confirmGo_fst_lt_of_success attempt 5 0 k (Nat.zero_le k)
      (by omega) hk
    have hne : (confirmGo attempt 5 0).1 ≠ 5 := by omega
    simp [confirmTransaction, MAX_RETRIES, hne]
  · intro hall
    have heq := confirmGo_fst_all_fail attempt 5 0 (fun k _ hk2 => hall k (by omega))
    simp [confirmTransaction, MAX_RETRIES, heq]

/-- C5 witness: an oracle failing the first four checks and confirming on the
fifth yields success with at most 5 checks made; an oracle that never
confirms yields the terminal error. -/
theorem confirm_transaction_retry_policy_witness :
    confirmTransaction attemptFifth = Except.ok () ∧
    confirmTransaction attemptNever = Except.error "could not confirm transaction" ∧
    attemptCount attemptFifth ≤ 5 := by
  refine ⟨(confirm_transaction_retry_policy attemptFifth).2.1 ⟨4, by decide, by decide⟩,
    (confirm_transaction_retry_policy attemptNever).2.2.1 (fun k _ => rfl),
    (confirm_transaction_retry_policy attemptFifth).1⟩

/-- C8: `register_return_data` returns the member id decoded little-endian
from exactly 8 return-data bytes, and returns a structured error — never a
silent default — when the transaction meta is absent, the return-data slot is
absent, the base64 payload is malformed, or the decoded payload is not
exactly 8 bytes; a success is possible only on the full decode path. -/
theorem register_return_data_contract
    (decodeB64 : String → Option (List Nat)) (resp : TxResponse) :
    (resp.transaction.meta = none →
      register_return_data decodeB64 resp =
        Except.error
          (ServerError.internal "missing return data (meta) from open instruction")) ∧
    (∀ meta, resp.transaction.meta = some meta → meta.return_data = none →
      register_return_data decodeB64 resp =
        Except.error
          (ServerError.internal "missing return data (meta) from open instruction")) ∧
    (∀ meta rd, resp.transaction.meta = some meta → meta.return_data = some rd →
      decodeB64 rd.data.1 = none →
      register_return_data decodeB64 resp = Except.error ServerError.base64Decode) ∧
    (∀ meta rd bytes, resp.transaction.meta = some meta →
      meta.return_data = some rd → decodeB64 rd.data.1 = some bytes →
      bytes.length ≠ 8 →
      register_return_data decodeB64 resp = Except.error ServerError.sliceConvert) ∧
    (∀ v, register_return_data decodeB64 resp = Except.ok v ↔
      ∃ meta rd bytes, resp.transaction.meta = some meta ∧
        meta.return_data = some rd ∧ decodeB64 rd.data.1 = some bytes ∧
        bytes.length = 8 ∧ v = leBytesToNat bytes) := by
  refine ⟨?_, ?_, ?_, ?_, ?_⟩
  · intro hm
    simp [register_return_data, hm]
  · intro meta hm hr
    simp [register_return_data, hm, hr]
  · intro meta rd hm hr hd
    simp [register_return_data, hm, hr, hd]
  · intro meta rd bytes hm hr hd hl
    simp [register_return_data, hm, hr, hd, hl]
  · intro v
    constructor
    · intro h
      rcases hm : resp.transaction.meta with _ | meta
      · simp [register_return_data, hm] at h
      · rcases hr : meta.return_data with _ | rd
        · simp [register_return_data, hm, hr] at h
        · rcases hd : decodeB64 rd.data.1 with _ | bytes
          · simp [register_return_data, hm, hr, hd] at h
          · by_cases hl : bytes.length = 8
            · refine ⟨meta, rd, bytes, by simp [hm], by simp [hr], by simp [hd],
                hl, ?_⟩
              simp [register_return_data, hm, hr, hd, hl] at h
              exact h.symm
            · simp [register_return_data, hm, hr, hd, hl] at h
    · rintro ⟨meta, rd, bytes, hm, hr, hd, hl, hv⟩
      subst hv
      simp [register_return_data, hm, hr, hd, hl]

/-- C8 witness: on a concrete response whose return data decodes to the bytes
`[2, 1, 0, 0, 0, 0, 0, 0]`, the member id is `2 + 256 * 1 = 258` —
little-endian, not the big-endian 513. -/
theorem register_return_data_contract_witness :
    register_return_data sampleDecode sampleResp = Except.ok 258 := by
  have h := (register_return_data_contract sampleDecode sampleResp).2.2.2.2 258
  exact h.mpr ⟨_, _, _, rfl, rfl, rfl, rfl, by decide⟩

/-- C9: the Certify, Initialize and Submit instruction tags encode as the
single bytes 100, 101 and 102; the `CertifyArgs` serialization is the 16-byte
digest, then the 8-byte nonce, then the 32-byte signature (56 bytes); the
`SubmitArgs` serialization is the 32-byte attestation, the batch-bump byte,
the 16-byte digest, then the 8-byte nonce (57 bytes); and the initialize
builder emits instruction data that begins with (indeed consists of) the
Initialize tag byte 101. -/
theorem instruction_layout :
    PoolInstruction.to_vec PoolInstruction.Certify = [100] ∧
    PoolInstruction.to_vec PoolInstruction.Initialize = [101] ∧
    PoolInstruction.to_vec PoolInstruction.Submit = [102] ∧
    (∀ a : CertifyArgs,
      (CertifyArgs.to_bytes a).length = 56 ∧
      (CertifyArgs.to_bytes a).take 16 = a.digest ∧
      ((CertifyArgs.to_bytes a).drop 16).take 8 = a.nonce ∧
      (CertifyArgs.to_bytes a).drop 24 = a.signature) ∧
    (∀ s : SubmitArgs,
      (SubmitArgs.to_bytes s).length = 57 ∧
      (SubmitArgs.to_bytes s).take 32 = s.attestation ∧
      (SubmitArgs.to_bytes s).drop 32 = s.batch_bump :: (s.digest ++ s.nonce) ∧
      ((SubmitArgs.to_bytes s).drop 33).take 16 = s.digest ∧
      (SubmitArgs.to_bytes s).drop 49 = s.nonce) ∧
    (∀ programId signer : Pubkey,
      (initializeIx programId signer).data =
        [PoolInstruction.tag PoolInstruction.Initialize] ∧
      PoolInstruction.tag PoolInstruction.Initialize = 101 ∧
      (initializeIx programId signer).data.head? = some 101) := by
  refine ⟨rfl, rfl, rfl, ?_, ?_, ?_⟩
  · intro a
    have hd := a.digest_size
    have hn := a.nonce_size
    have hs := a.signature_size
    refine ⟨?_, ?_, ?_, ?_⟩
    · simp [CertifyArgs.to_bytes, hd, hn, hs]
    · rw [CertifyArgs.to_bytes, ← hd, List.take_left]
    · rw [CertifyArgs.to_bytes, ← hd, List.drop_left, ← hn, List.take_left]
    · have h24 : (24 : Nat) = (a.digest ++ a.nonce).length := by
        simp [hd, hn]
      rw [CertifyArgs.to_bytes, ← List.append_assoc, h24, List.drop_left]
  · intro s
    have ha := s.attestation_size
    have hg := s.digest_size
    have hn := s.nonce_size
    refine ⟨?_, ?_, ?_, ?_, ?_⟩
    · simp [SubmitArgs.to_bytes, ha, hg, hn]
    · rw [SubmitArgs.to_bytes, ← ha, List.take_left]
    · rw [SubmitArgs.to_bytes, ← ha, List.drop_left]
      rfl
    · have h33 : (33 : Nat) = (s.attestation ++ [s.batch_bump]).length := by
        simp [ha]
      rw [SubmitArgs.to_bytes, ← List.append_assoc, h33, List.drop_left, ← hg,
        List.take_left]
    · have h49 : (49 : Nat) = ((s.attestation ++ [s.batch_bump]) ++ s.digest).length := by
        simp [ha, hg]
      rw [SubmitArgs.to_bytes, ← List.append_assoc, ← List.append_assoc, h49,
        List.drop_left]
  · intro programId signer
    exact ⟨rfl, rfl, rfl⟩

/-- C9 witness: the layout theorem applied at concrete argument structs and a
concrete signer. -/
theorem instruction_layout_witness :
    (CertifyArgs.to_bytes sampleCertify).length = 56 ∧
    (SubmitArgs.to_bytes sampleSubmit).drop 49 = List.replicate 8 9 ∧
    (initializeIx (List.replicate 32 0) (List.replicate 32 1)).data = [101] := by
  refine ⟨(instruction_layout.2.2.2.1 sampleCertify).1,
    (instruction_layout.2.2.2.2.1 sampleSubmit).2.2.2.2, ?_⟩
  have h := instruction_layout.2.2.2.2.2 (List.replicate 32 0) (List.replicate 32 1)
  rw [h.1, h.2.1]

/-- C10: for the decoded claim amount, when it does not exceed the member's
balance the balance after `process_claim`'s update equals the balance before
minus the amount; when it exceeds the balance the unwrapped `checked_sub`
panics (modelled as `none`) rather than returning a `ProgramError` — so under
the precondition `amount ≤ balance` the panic branch is unreachable. -/
theorem process_claim_balance (member : Member) (args : ClaimArgs) :
    (claimAmount args ≤ member.balance →
      processClaimBalance member (claimAmount args) =
        some { member with balance := member.balance - claimAmount args }) ∧
    (member.balance < claimAmount args →
      processClaimBalance member (claimAmount args) = none) := by
  constructor
  · intro h
    simp [processClaimBalance, checked_sub, h]
  · intro h
    have hn : ¬ claimAmount args ≤ member.balance := Nat.not_le.mpr h
    simp [processClaimBalance, checked_sub, hn]

/-- C10 witness: claiming 100 from a balance of 1000 leaves 900; claiming
`256 ^ 7` from it reaches the panic branch. -/
theorem process_claim_balance_witness :
    processClaimBalance sampleMember (claimAmount sampleClaim) =
      some { sampleMember with balance := 900 } ∧
    processClaimBalance sampleMember (claimAmount overClaim) = none := by
  refine ⟨?_, (process_claim_balance sampleMember overClaim).2 (by decide)⟩
  exact (process_claim_balance sampleMember sampleClaim).1 (by decide)

end OrePool

